import Mathlib

/-!
Verification of the `snapshot` package (a Go library collecting diagnostic
snapshots of a running process) against its natural-language specification.

The two operations of the package, `Collect` and `Full`, are shallowly
embedded as pure Lean functions over an explicit environment recording the
outcome of every runtime/OS primitive the Go code invokes (file opens, zip
entry creation, JSON encoding, pprof profile writes, temp-file creation,
heap-dump copy, and so on).  Machine integers are modelled as `Nat`/`Int`
(no value in the program is ever close to overflow), byte sequences as
`String`, and Go's `error` results as `Option String` carrying the error
message.  JSON serialization of the snapshot record is modelled at the
level of JSON trees, with a renderer for the textual form.
-/

set_option maxHeartbeats 1000000

namespace runtime

/-- Model of one element of Go's `runtime.MemStats.BySize` array. -/
structure BySizeEntry where
  Size : Nat
  Mallocs : Nat
  Frees : Nat
  deriving DecidableEq, Inhabited

/-- Model of Go's `runtime.MemStats`: all `uint64`/`uint32` counters become
`Nat`, the fixed-size arrays `PauseNs`/`PauseEnd`/`BySize` become lists, and
the single `float64` field `GCCPUFraction` becomes `Rat` (Go's JSON encoding
of a finite `float64` is exact under round-trip, so an exact numeric type is
a faithful model). -/
structure MemStats where
  Alloc : Nat
  TotalAlloc : Nat
  Sys : Nat
  Lookups : Nat
  Mallocs : Nat
  Frees : Nat
  HeapAlloc : Nat
  HeapSys : Nat
  HeapIdle : Nat
  HeapInuse : Nat
  HeapReleased : Nat
  HeapObjects : Nat
  StackInuse : Nat
  StackSys : Nat
  MSpanInuse : Nat
  MSpanSys : Nat
  MCacheInuse : Nat
  MCacheSys : Nat
  BuckHashSys : Nat
  GCSys : Nat
  OtherSys : Nat
  NextGC : Nat
  LastGC : Nat
  PauseTotalNs : Nat
  PauseNs : List Nat
  PauseEnd : List Nat
  NumGC : Nat
  NumForcedGC : Nat
  GCCPUFraction : Rat
  EnableGC : Bool
  DebugGC : Bool
  BySize : List BySizeEntry
  deriving DecidableEq, Inhabited

end runtime

namespace debug

/-- Model of Go's `runtime/debug.GCStats`.  `time.Time` values are modelled
by their instant in nanoseconds (`Int`), `time.Duration` is an `int64`,
hence `Int`. -/
structure GCStats where
  LastGC : Int
  NumGC : Int
  PauseTotal : Int
  Pause : List Int
  PauseEnd : List Int
  PauseQuantiles : List Int
  deriving DecidableEq, Inhabited

/-- Model of Go's `runtime/debug.Module`.  The `Replace *Module` pointer
becomes `Option Module` (`none` models a nil pointer). -/
inductive Module where
  | mk (Path : String) (Version : String) (Sum : String) (Replace : Option Module)

instance : Inhabited Module := ⟨.mk "" "" "" none⟩

/-- Boolean equality on `Module` (the automatic derivation does not handle
the nested `Option Module` field). -/
def Module.beq : Module → Module → Bool
  | .mk p1 v1 s1 r1, .mk p2 v2 s2 r2 =>
    p1 == p2 && v1 == v2 && s1 == s2 &&
      (match r1, r2 with
       | none, none => true
       | some m1, some m2 => Module.beq m1 m2
       | _, _ => false)

theorem Module.beq_iff_eq : ∀ a b : Module, Module.beq a b = true ↔ a = b
  | .mk p1 v1 s1 r1, .mk p2 v2 s2 r2 => by
    cases r1 with
    | none => cases r2 <;> simp [Module.beq, and_assoc]
    | some m1 =>
      cases r2 with
      | none => simp [Module.beq]
      | some m2 =>
        have ih := Module.beq_iff_eq m1 m2
        simp [Module.beq, ih, and_assoc]

instance : DecidableEq Module := fun a b => decidable_of_iff _ (Module.beq_iff_eq a b)

def Module.Path : Module → String
  | .mk p _ _ _ => p

def Module.Version : Module → String
  | .mk _ v _ _ => v

def Module.Sum : Module → String
  | .mk _ _ s _ => s

def Module.Replace : Module → Option Module
  | .mk _ _ _ r => r

/-- Model of Go's `runtime/debug.BuildSetting`. -/
structure BuildSetting where
  Key : String
  Value : String
  deriving DecidableEq, Inhabited

/-- Model of Go's `runtime/debug.BuildInfo`.  `Deps []*Module` becomes a
list of modules (`ReadBuildInfo` never places nil pointers in it). -/
structure BuildInfo where
  GoVersion : String
  Path : String
  Main : Module
  Deps : List Module
  Settings : List BuildSetting
  deriving DecidableEq, Inhabited

end debug

/-- The `Snapshot` struct of `snapshot.go`, field for field.  Go `int`
fields become `Int`. -/
structure Snapshot where
  Memory : runtime.MemStats
  GC : debug.GCStats
  Stack : String
  BuildInfo : debug.BuildInfo
  NumGoRoutines : Int
  Pid : Int
  Uid : Int
  Gid : Int
  Environ : List String
  Executable : String
  Wd : String
  Hostname : String
  deriving DecidableEq, Inhabited

/-- JSON values, as produced by Go's `encoding/json`.  Numbers carry exact
rational values: every numeric field of `Snapshot` is an integer or a
finite `float64`, both of which Go's encoder renders exactly and its
decoder parses back exactly. -/
inductive Json where
  | null : Json
  | bool (b : Bool) : Json
  | num (q : Rat) : Json
  | str (s : String) : Json
  | arr (elems : List Json) : Json
  | obj (fields : List (String × Json)) : Json
  deriving Inhabited

namespace Json

/-- Encoding of a Go unsigned integer as a JSON number. -/
def ofNat (n : Nat) : Json := .num n

/-- Encoding of a Go signed integer (`int`, `int64`, `time.Duration`, or a
`time.Time` instant) as a JSON number. -/
def ofInt (i : Int) : Json := .num i

/-- Decoding of a JSON value into an unsigned integer, as Go's
`encoding/json` does for a `uint64`/`uint32` target: the number must be a
non-negative integer, anything else is an error. -/
def asNat : Json → Option Nat
  | .num q => if q.den = 1 ∧ 0 ≤ q.num then some q.num.toNat else none
  | _ => none

/-- Decoding of a JSON value into a signed integer. -/
def asInt : Json → Option Int
  | .num q => if q.den = 1 then some q.num else none
  | _ => none

/-- Decoding of a JSON number into a `float64` target (modelled by `Rat`). -/
def asRat : Json → Option Rat
  | .num q => some q
  | _ => none

/-- Decoding of a JSON string into a Go string target. -/
def asStr : Json → Option String
  | .str s => some s
  | _ => none

/-- Decoding of a JSON boolean into a Go bool target. -/
def asBool : Json → Option Bool
  | .bool b => some b
  | _ => none

/-- Element-wise decoding of a list of JSON values; fails if any element
fails. -/
def decodeList (dec : Json → Option α) : List Json → Option (List α)
  | [] => some []
  | j :: t => do
    let a ← dec j
    let rest ← decodeList dec t
    some (a :: rest)

/-- Decoding of a JSON array into a Go slice/array target, element by
element. -/
def asArrOf (dec : Json → Option α) : Json → Option (List α)
  | .arr l => decodeList dec l
  | _ => none

@[simp] theorem ofNat_eq (n : Nat) : ofNat n = .num n := rfl

@[simp] theorem ofInt_eq (i : Int) : ofInt i = .num i := rfl

@[simp] theorem asNat_num (n : Nat) : asNat (.num n) = some n := by
  simp [asNat]

@[simp] theorem asInt_num (i : Int) : asInt (.num i) = some i := by
  simp [asInt]

theorem asNat_ofNat (n : Nat) : asNat (ofNat n) = some n := by simp

theorem asInt_ofInt (i : Int) : asInt (ofInt i) = some i := by simp

@[simp] theorem asRat_num (q : Rat) : asRat (.num q) = some q := rfl

@[simp] theorem asStr_str (s : String) : asStr (.str s) = some s := rfl

@[simp] theorem asBool_bool (b : Bool) : asBool (.bool b) = some b := rfl

theorem asArrOf_map {α : Type} (dec : Json → Option α) (enc : α → Json)
    (h : ∀ a, dec (enc a) = some a) (l : List α) :
    asArrOf dec (.arr (l.map enc)) = some l := by
  simp only [asArrOf]
  induction l with
  | nil => simp [decodeList]
  | cons a t ih => simp [decodeList, h, ih]

@[simp] theorem asArrOf_map_ofNat (l : List Nat) :
    asArrOf asNat (.arr (l.map ofNat)) = some l :=
  asArrOf_map asNat ofNat asNat_ofNat l

@[simp] theorem asArrOf_map_ofInt (l : List Int) :
    asArrOf asInt (.arr (l.map ofInt)) = some l :=
  asArrOf_map asInt ofInt asInt_ofInt l

@[simp] theorem asArrOf_map_str (l : List String) :
    asArrOf asStr (.arr (l.map Json.str)) = some l :=
  asArrOf_map asStr Json.str asStr_str l

end Json

/-- Field access on a decoded JSON object, as Go's `encoding/json` performs
it when filling a struct that starts from its zero value: a missing key or
an explicit `null` leaves the field at the zero value `z`; any other value
must decode, else the whole decode fails. -/
def getF {α : Type} (o : List (String × Json)) (k : String)
    (dec : Json → Option α) (z : α) : Option α :=
  match List.lookup k o with
  | none => some z
  | some .null => some z
  | some v => dec v

/-- JSON encoding of a `runtime.MemStats.BySize` element, keys as Go emits
them (the struct has no JSON tags, so keys are the field names). -/
def encodeBySizeEntry (e : runtime.BySizeEntry) : Json :=
  .obj [("Size", .ofNat e.Size), ("Mallocs", .ofNat e.Mallocs),
        ("Frees", .ofNat e.Frees)]

/-- JSON decoding of a `runtime.MemStats.BySize` element. -/
def decodeBySizeEntry : Json → Option runtime.BySizeEntry
  | .obj o => do
    let size ← getF o "Size" Json.asNat 0
    let mallocs ← getF o "Mallocs" Json.asNat 0
    let frees ← getF o "Frees" Json.asNat 0
    some { Size := size, Mallocs := mallocs, Frees := frees }
  | _ => none

@[simp] theorem decodeBySizeEntry_encodeBySizeEntry (e : runtime.BySizeEntry) :
    decodeBySizeEntry (encodeBySizeEntry e) = some e := by
  simp [encodeBySizeEntry, decodeBySizeEntry, getF, List.lookup]

@[simp] theorem asArrOf_bySize (l : List runtime.BySizeEntry) :
    Json.asArrOf decodeBySizeEntry (.arr (l.map encodeBySizeEntry)) = some l :=
  Json.asArrOf_map decodeBySizeEntry encodeBySizeEntry
    decodeBySizeEntry_encodeBySizeEntry l


/-- The key/value list Go's `encoding/json` produces for `runtime.MemStats`:
fields in declaration order, keys equal to the Go field names (the struct
carries no JSON tags). -/
def memStatsFields (m : runtime.MemStats) : List (String × Json) :=
  [("Alloc", .num m.Alloc),
   ("TotalAlloc", .num m.TotalAlloc),
   ("Sys", .num m.Sys),
   ("Lookups", .num m.Lookups),
   ("Mallocs", .num m.Mallocs),
   ("Frees", .num m.Frees),
   ("HeapAlloc", .num m.HeapAlloc),
   ("HeapSys", .num m.HeapSys),
   ("HeapIdle", .num m.HeapIdle),
   ("HeapInuse", .num m.HeapInuse),
   ("HeapReleased", .num m.HeapReleased),
   ("HeapObjects", .num m.HeapObjects),
   ("StackInuse", .num m.StackInuse),
   ("StackSys", .num m.StackSys),
   ("MSpanInuse", .num m.MSpanInuse),
   ("MSpanSys", .num m.MSpanSys),
   ("MCacheInuse", .num m.MCacheInuse),
   ("MCacheSys", .num m.MCacheSys),
   ("BuckHashSys", .num m.BuckHashSys),
   ("GCSys", .num m.GCSys),
   ("OtherSys", .num m.OtherSys),
   ("NextGC", .num m.NextGC),
   ("LastGC", .num m.LastGC),
   ("PauseTotalNs", .num m.PauseTotalNs),
   ("PauseNs", .arr (m.PauseNs.map Json.ofNat)),
   ("PauseEnd", .arr (m.PauseEnd.map Json.ofNat)),
   ("NumGC", .num m.NumGC),
   ("NumForcedGC", .num m.NumForcedGC),
   ("GCCPUFraction", .num m.GCCPUFraction),
   ("EnableGC", .bool m.EnableGC),
   ("DebugGC", .bool m.DebugGC),
   ("BySize", .arr (m.BySize.map encodeBySizeEntry))]

/-- JSON encoding of `runtime.MemStats`. -/
def encodeMemStats (m : runtime.MemStats) : Json := .obj (memStatsFields m)

/-- One quarter of the fields of `runtime.MemStats`, used to split its
JSON decoder into pieces of bounded size. -/
structure MemStatsQ1 where
  Alloc : Nat
  TotalAlloc : Nat
  Sys : Nat
  Lookups : Nat
  Mallocs : Nat
  Frees : Nat
  HeapAlloc : Nat
  HeapSys : Nat

/-- One quarter of the fields of `runtime.MemStats`, used to split its
JSON decoder into pieces of bounded size. -/
structure MemStatsQ2 where
  HeapIdle : Nat
  HeapInuse : Nat
  HeapReleased : Nat
  HeapObjects : Nat
  StackInuse : Nat
  StackSys : Nat
  MSpanInuse : Nat
  MSpanSys : Nat

/-- One quarter of the fields of `runtime.MemStats`, used to split its
JSON decoder into pieces of bounded size. -/
structure MemStatsQ3 where
  MCacheInuse : Nat
  MCacheSys : Nat
  BuckHashSys : Nat
  GCSys : Nat
  OtherSys : Nat
  NextGC : Nat
  LastGC : Nat
  PauseTotalNs : Nat

/-- One quarter of the fields of `runtime.MemStats`, used to split its
JSON decoder into pieces of bounded size. -/
structure MemStatsQ4 where
  PauseNs : List Nat
  PauseEnd : List Nat
  NumGC : Nat
  NumForcedGC : Nat
  GCCPUFraction : Rat
  EnableGC : Bool
  DebugGC : Bool
  BySize : List runtime.BySizeEntry

/-- Decoders for a quarter of the `runtime.MemStats` fields. -/
def decodeMemStatsQ1 (o : List (String × Json)) : Option MemStatsQ1 := do
  let xAlloc ← getF o "Alloc" Json.asNat 0
  let xTotalAlloc ← getF o "TotalAlloc" Json.asNat 0
  let xSys ← getF o "Sys" Json.asNat 0
  let xLookups ← getF o "Lookups" Json.asNat 0
  let xMallocs ← getF o "Mallocs" Json.asNat 0
  let xFrees ← getF o "Frees" Json.asNat 0
  let xHeapAlloc ← getF o "HeapAlloc" Json.asNat 0
  let xHeapSys ← getF o "HeapSys" Json.asNat 0
  some { Alloc := xAlloc, TotalAlloc := xTotalAlloc, Sys := xSys, Lookups := xLookups, Mallocs := xMallocs, Frees := xFrees, HeapAlloc := xHeapAlloc, HeapSys := xHeapSys }

/-- Decoders for a quarter of the `runtime.MemStats` fields. -/
def decodeMemStatsQ2 (o : List (String × Json)) : Option MemStatsQ2 := do
  let xHeapIdle ← getF o "HeapIdle" Json.asNat 0
  let xHeapInuse ← getF o "HeapInuse" Json.asNat 0
  let xHeapReleased ← getF o "HeapReleased" Json.asNat 0
  let xHeapObjects ← getF o "HeapObjects" Json.asNat 0
  let xStackInuse ← getF o "StackInuse" Json.asNat 0
  let xStackSys ← getF o "StackSys" Json.asNat 0
  let xMSpanInuse ← getF o "MSpanInuse" Json.asNat 0
  let xMSpanSys ← getF o "MSpanSys" Json.asNat 0
  some { HeapIdle := xHeapIdle, HeapInuse := xHeapInuse, HeapReleased := xHeapReleased, HeapObjects := xHeapObjects, StackInuse := xStackInuse, StackSys := xStackSys, MSpanInuse := xMSpanInuse, MSpanSys := xMSpanSys }

/-- Decoders for a quarter of the `runtime.MemStats` fields. -/
def decodeMemStatsQ3 (o : List (String × Json)) : Option MemStatsQ3 := do
  let xMCacheInuse ← getF o "MCacheInuse" Json.asNat 0
  let xMCacheSys ← getF o "MCacheSys" Json.asNat 0
  let xBuckHashSys ← getF o "BuckHashSys" Json.asNat 0
  let xGCSys ← getF o "GCSys" Json.asNat 0
  let xOtherSys ← getF o "OtherSys" Json.asNat 0
  let xNextGC ← getF o "NextGC" Json.asNat 0
  let xLastGC ← getF o "LastGC" Json.asNat 0
  let xPauseTotalNs ← getF o "PauseTotalNs" Json.asNat 0
  some { MCacheInuse := xMCacheInuse, MCacheSys := xMCacheSys, BuckHashSys := xBuckHashSys, GCSys := xGCSys, OtherSys := xOtherSys, NextGC := xNextGC, LastGC := xLastGC, PauseTotalNs := xPauseTotalNs }

/-- Decoders for a quarter of the `runtime.MemStats` fields. -/
def decodeMemStatsQ4 (o : List (String × Json)) : Option MemStatsQ4 := do
  let xPauseNs ← getF o "PauseNs" (Json.asArrOf Json.asNat) []
  let xPauseEnd ← getF o "PauseEnd" (Json.asArrOf Json.asNat) []
  let xNumGC ← getF o "NumGC" Json.asNat 0
  let xNumForcedGC ← getF o "NumForcedGC" Json.asNat 0
  let xGCCPUFraction ← getF o "GCCPUFraction" Json.asRat 0
  let xEnableGC ← getF o "EnableGC" Json.asBool false
  let xDebugGC ← getF o "DebugGC" Json.asBool false
  let xBySize ← getF o "BySize" (Json.asArrOf decodeBySizeEntry) []
  some { PauseNs := xPauseNs, PauseEnd := xPauseEnd, NumGC := xNumGC, NumForcedGC := xNumForcedGC, GCCPUFraction := xGCCPUFraction, EnableGC := xEnableGC, DebugGC := xDebugGC, BySize := xBySize }

/-- JSON decoding of `runtime.MemStats`, field by field from its zero
value, as Go's `encoding/json` fills a struct (split into quarters to keep
each definition small). -/
def decodeMemStats : Json → Option runtime.MemStats
  | .obj o => do
    let q1 ← decodeMemStatsQ1 o
    let q2 ← decodeMemStatsQ2 o
    let q3 ← decodeMemStatsQ3 o
    let q4 ← decodeMemStatsQ4 o
    some { Alloc := q1.Alloc, TotalAlloc := q1.TotalAlloc, Sys := q1.Sys,
           Lookups := q1.Lookups, Mallocs := q1.Mallocs, Frees := q1.Frees,
           HeapAlloc := q1.HeapAlloc, HeapSys := q1.HeapSys,
           HeapIdle := q2.HeapIdle, HeapInuse := q2.HeapInuse,
           HeapReleased := q2.HeapReleased, HeapObjects := q2.HeapObjects,
           StackInuse := q2.StackInuse, StackSys := q2.StackSys,
           MSpanInuse := q2.MSpanInuse, MSpanSys := q2.MSpanSys,
           MCacheInuse := q3.MCacheInuse, MCacheSys := q3.MCacheSys,
           BuckHashSys := q3.BuckHashSys, GCSys := q3.GCSys,
           OtherSys := q3.OtherSys, NextGC := q3.NextGC,
           LastGC := q3.LastGC, PauseTotalNs := q3.PauseTotalNs,
           PauseNs := q4.PauseNs, PauseEnd := q4.PauseEnd,
           NumGC := q4.NumGC, NumForcedGC := q4.NumForcedGC,
           GCCPUFraction := q4.GCCPUFraction, EnableGC := q4.EnableGC,
           DebugGC := q4.DebugGC, BySize := q4.BySize }
  | _ => none

theorem decodeMemStatsQ1_fields (m : runtime.MemStats) :
    decodeMemStatsQ1 (memStatsFields m) = some ⟨m.Alloc, m.TotalAlloc, m.Sys, m.Lookups, m.Mallocs, m.Frees, m.HeapAlloc, m.HeapSys⟩ := rfl

theorem decodeMemStatsQ2_fields (m : runtime.MemStats) :
    decodeMemStatsQ2 (memStatsFields m) = some ⟨m.HeapIdle, m.HeapInuse, m.HeapReleased, m.HeapObjects, m.StackInuse, m.StackSys, m.MSpanInuse, m.MSpanSys⟩ := rfl

theorem decodeMemStatsQ3_fields (m : runtime.MemStats) :
    decodeMemStatsQ3 (memStatsFields m) = some ⟨m.MCacheInuse, m.MCacheSys, m.BuckHashSys, m.GCSys, m.OtherSys, m.NextGC, m.LastGC, m.PauseTotalNs⟩ := rfl

theorem decodeMemStatsQ4_fields (m : runtime.MemStats) :
    decodeMemStatsQ4 (memStatsFields m) = some ⟨m.PauseNs, m.PauseEnd, m.NumGC, m.NumForcedGC, m.GCCPUFraction, m.EnableGC, m.DebugGC, m.BySize⟩ := by
  show Option.bind (Json.asArrOf Json.asNat (.arr (m.PauseNs.map Json.ofNat))) _ = _
  rw [Json.asArrOf_map_ofNat]
  show Option.bind (Json.asArrOf Json.asNat (.arr (m.PauseEnd.map Json.ofNat))) _ = _
  rw [Json.asArrOf_map_ofNat]
  show Option.bind (Json.asArrOf decodeBySizeEntry (.arr (m.BySize.map encodeBySizeEntry))) _ = _
  rw [asArrOf_bySize]
  rfl

theorem decodeMemStats_encodeMemStats (m : runtime.MemStats) :
    decodeMemStats (encodeMemStats m) = some m := by
  simp only [encodeMemStats, decodeMemStats, decodeMemStatsQ1_fields,
    decodeMemStatsQ2_fields, decodeMemStatsQ3_fields, decodeMemStatsQ4_fields,
    Option.some_bind]
  rfl

/-- Key/value list Go's `encoding/json` produces for `debug.GCStats`. -/
def gcStatsFields (g : debug.GCStats) : List (String × Json) :=
  [("LastGC", .ofInt g.LastGC),
   ("NumGC", .ofInt g.NumGC),
   ("PauseTotal", .ofInt g.PauseTotal),
   ("Pause", .arr (g.Pause.map Json.ofInt)),
   ("PauseEnd", .arr (g.PauseEnd.map Json.ofInt)),
   ("PauseQuantiles", .arr (g.PauseQuantiles.map Json.ofInt))]

/-- JSON encoding of `debug.GCStats`. -/
def encodeGCStats (g : debug.GCStats) : Json := .obj (gcStatsFields g)

/-- Field-list part of the JSON decoding of `debug.GCStats`. -/
def decodeGCStatsF (o : List (String × Json)) : Option debug.GCStats := do
  let lastGC ← getF o "LastGC" Json.asInt 0
  let numGC ← getF o "NumGC" Json.asInt 0
  let pauseTotal ← getF o "PauseTotal" Json.asInt 0
  let pause ← getF o "Pause" (Json.asArrOf Json.asInt) []
  let pauseEnd ← getF o "PauseEnd" (Json.asArrOf Json.asInt) []
  let pauseQuantiles ← getF o "PauseQuantiles" (Json.asArrOf Json.asInt) []
  some { LastGC := lastGC, NumGC := numGC, PauseTotal := pauseTotal,
         Pause := pause, PauseEnd := pauseEnd,
         PauseQuantiles := pauseQuantiles }

/-- JSON decoding of `debug.GCStats`. -/
def decodeGCStats : Json → Option debug.GCStats
  | .obj o => decodeGCStatsF o
  | _ => none

theorem decodeGCStatsF_fields (g : debug.GCStats) :
    decodeGCStatsF (gcStatsFields g) = some g := by
  show Option.bind (Json.asArrOf Json.asInt (.arr (g.Pause.map Json.ofInt))) _ = _
  rw [Json.asArrOf_map_ofInt]
  show Option.bind (Json.asArrOf Json.asInt (.arr (g.PauseEnd.map Json.ofInt))) _ = _
  rw [Json.asArrOf_map_ofInt]
  show Option.bind (Json.asArrOf Json.asInt (.arr (g.PauseQuantiles.map Json.ofInt))) _ = _
  rw [Json.asArrOf_map_ofInt]
  rfl

theorem decodeGCStats_encodeGCStats (g : debug.GCStats) :
    decodeGCStats (encodeGCStats g) = some g :=
  decodeGCStatsF_fields g

/-- JSON encoding of `debug.BuildSetting`. -/
def encodeBuildSetting (s : debug.BuildSetting) : Json :=
  .obj [("Key", .str s.Key), ("Value", .str s.Value)]

/-- JSON decoding of `debug.BuildSetting`. -/
def decodeBuildSetting : Json → Option debug.BuildSetting
  | .obj o => do
    let key ← getF o "Key" Json.asStr ""
    let value ← getF o "Value" Json.asStr ""
    some { Key := key, Value := value }
  | _ => none

theorem decodeBuildSetting_encodeBuildSetting (s : debug.BuildSetting) :
    decodeBuildSetting (encodeBuildSetting s) = some s := rfl

@[simp] theorem asArrOf_settings (l : List debug.BuildSetting) :
    Json.asArrOf decodeBuildSetting (.arr (l.map encodeBuildSetting)) = some l :=
  Json.asArrOf_map decodeBuildSetting encodeBuildSetting
    decodeBuildSetting_encodeBuildSetting l

/-- Key/value list Go's `encoding/json` produces for `debug.Module`: the
`Replace` pointer encodes as `null` when nil and as a nested object
otherwise. -/
def moduleFields : debug.Module → List (String × Json)
  | .mk p v s r =>
    [("Path", .str p), ("Version", .str v), ("Sum", .str s),
     ("Replace", match r with
                 | none => .null
                 | some mm => .obj (moduleFields mm))]

/-- JSON encoding of `debug.Module`. -/
def encodeModule (m : debug.Module) : Json := .obj (moduleFields m)

mutual

/-- JSON decoding of `debug.Module`. -/
def decodeModule : Json → Option debug.Module
  | .obj o => do
    let path ← getF o "Path" Json.asStr ""
    let version ← getF o "Version" Json.asStr ""
    let sum ← getF o "Sum" Json.asStr ""
    let rep ← decodeReplace o
    some (.mk path version sum rep)
  | _ => none

/-- Scan of an object's fields for the `Replace` key, decoding the nested
pointer target (a missing key or `null` is the nil pointer). -/
def decodeReplace : List (String × Json) → Option (Option debug.Module)
  | [] => some none
  | (k, v) :: t =>
    if k = "Replace" then
      match v with
      | .null => some none
      | v => (decodeModule v).map some
    else decodeReplace t

end

theorem decodeModule_moduleFields :
    ∀ mm : debug.Module, decodeModule (.obj (moduleFields mm)) = some mm
  | .mk p v s none => by
    simp [moduleFields, decodeModule, decodeReplace, getF, List.lookup_cons]
  | .mk p v s (some mm) => by
    have ih := decodeModule_moduleFields mm
    simp only [moduleFields]
    simp only [decodeModule]
    simp [getF, List.lookup, decodeReplace, ih]

theorem decodeModule_encodeModule (mm : debug.Module) :
    decodeModule (encodeModule mm) = some mm :=
  decodeModule_moduleFields mm

@[simp] theorem asArrOf_modules (l : List debug.Module) :
    Json.asArrOf decodeModule (.arr (l.map encodeModule)) = some l :=
  Json.asArrOf_map decodeModule encodeModule decodeModule_encodeModule l

/-- Go zero value of `debug.Module` (a struct of empty strings and a nil
pointer). -/
def debug.Module.zero : debug.Module := .mk "" "" "" none

/-- Key/value list Go's `encoding/json` produces for `debug.BuildInfo`. -/
def buildInfoFields (b : debug.BuildInfo) : List (String × Json) :=
  [("GoVersion", .str b.GoVersion),
   ("Path", .str b.Path),
   ("Main", .obj (moduleFields b.Main)),
   ("Deps", .arr (b.Deps.map encodeModule)),
   ("Settings", .arr (b.Settings.map encodeBuildSetting))]

/-- JSON encoding of `debug.BuildInfo`. -/
def encodeBuildInfo (b : debug.BuildInfo) : Json := .obj (buildInfoFields b)

/-- Field-list part of the JSON decoding of `debug.BuildInfo`. -/
def decodeBuildInfoF (o : List (String × Json)) : Option debug.BuildInfo := do
  let goVersion ← getF o "GoVersion" Json.asStr ""
  let path ← getF o "Path" Json.asStr ""
  let main ← getF o "Main" decodeModule debug.Module.zero
  let deps ← getF o "Deps" (Json.asArrOf decodeModule) []
  let settings ← getF o "Settings" (Json.asArrOf decodeBuildSetting) []
  some { GoVersion := goVersion, Path := path, Main := main, Deps := deps,
         Settings := settings }

/-- JSON decoding of `debug.BuildInfo`. -/
def decodeBuildInfo : Json → Option debug.BuildInfo
  | .obj o => decodeBuildInfoF o
  | _ => none

theorem decodeBuildInfoF_fields (b : debug.BuildInfo) :
    decodeBuildInfoF (buildInfoFields b) = some b := by
  show Option.bind (decodeModule (.obj (moduleFields b.Main))) _ = _
  rw [decodeModule_moduleFields]
  show Option.bind (Json.asArrOf decodeModule (.arr (b.Deps.map encodeModule))) _ = _
  rw [asArrOf_modules]
  show Option.bind (Json.asArrOf decodeBuildSetting (.arr (b.Settings.map encodeBuildSetting))) _ = _
  rw [asArrOf_settings]
  rfl

theorem decodeBuildInfo_encodeBuildInfo (b : debug.BuildInfo) :
    decodeBuildInfo (encodeBuildInfo b) = some b :=
  decodeBuildInfoF_fields b

/-- Go zero value of `runtime.MemStats`. -/
def runtime.MemStats.zero : runtime.MemStats :=
  { Alloc := 0, TotalAlloc := 0, Sys := 0, Lookups := 0, Mallocs := 0,
    Frees := 0, HeapAlloc := 0, HeapSys := 0, HeapIdle := 0, HeapInuse := 0,
    HeapReleased := 0, HeapObjects := 0, StackInuse := 0, StackSys := 0,
    MSpanInuse := 0, MSpanSys := 0, MCacheInuse := 0, MCacheSys := 0,
    BuckHashSys := 0, GCSys := 0, OtherSys := 0, NextGC := 0, LastGC := 0,
    PauseTotalNs := 0, PauseNs := [], PauseEnd := [], NumGC := 0,
    NumForcedGC := 0, GCCPUFraction := 0, EnableGC := false,
    DebugGC := false, BySize := [] }

/-- Go zero value of `debug.GCStats`. -/
def debug.GCStats.zero : debug.GCStats :=
  { LastGC := 0, NumGC := 0, PauseTotal := 0, Pause := [], PauseEnd := [],
    PauseQuantiles := [] }

/-- Go zero value of `debug.BuildInfo`. -/
def debug.BuildInfo.zero : debug.BuildInfo :=
  { GoVersion := "", Path := "", Main := debug.Module.zero, Deps := [],
    Settings := [] }

theorem decodeMemStats_objFields (m : runtime.MemStats) :
    decodeMemStats (.obj (memStatsFields m)) = some m :=
  decodeMemStats_encodeMemStats m

theorem decodeGCStats_objFields (g : debug.GCStats) :
    decodeGCStats (.obj (gcStatsFields g)) = some g :=
  decodeGCStatsF_fields g

theorem decodeBuildInfo_objFields (b : debug.BuildInfo) :
    decodeBuildInfo (.obj (buildInfoFields b)) = some b :=
  decodeBuildInfoF_fields b

/-- Key/value list Go's `encoding/json` produces for the `Snapshot` struct
of `snapshot.go`: its twelve fields in declaration order, keys equal to the
Go field names (the struct carries no JSON tags). -/
def snapshotFields (s : Snapshot) : List (String × Json) :=
  [("Memory", .obj (memStatsFields s.Memory)),
   ("GC", .obj (gcStatsFields s.GC)),
   ("Stack", .str s.Stack),
   ("BuildInfo", .obj (buildInfoFields s.BuildInfo)),
   ("NumGoRoutines", .num s.NumGoRoutines),
   ("Pid", .num s.Pid),
   ("Uid", .num s.Uid),
   ("Gid", .num s.Gid),
   ("Environ", .arr (s.Environ.map Json.str)),
   ("Executable", .str s.Executable),
   ("Wd", .str s.Wd),
   ("Hostname", .str s.Hostname)]

/-- JSON encoding of a `Snapshot` record, as `json.Encoder.Encode`
serializes it in `Full`. -/
def encodeSnapshot (s : Snapshot) : Json := .obj (snapshotFields s)

/-- First half of the `Snapshot` fields, used to split the decoder. -/
structure SnapshotP1 where
  Memory : runtime.MemStats
  GC : debug.GCStats
  Stack : String
  BuildInfo : debug.BuildInfo
  NumGoRoutines : Int
  Pid : Int

/-- Second half of the `Snapshot` fields, used to split the decoder. -/
structure SnapshotP2 where
  Uid : Int
  Gid : Int
  Environ : List String
  Executable : String
  Wd : String
  Hostname : String

/-- Decoder for the first half of the `Snapshot` fields. -/
def decodeSnapshotP1 (o : List (String × Json)) : Option SnapshotP1 := do
  let memory ← getF o "Memory" decodeMemStats runtime.MemStats.zero
  let gc ← getF o "GC" decodeGCStats debug.GCStats.zero
  let stack ← getF o "Stack" Json.asStr ""
  let buildInfo ← getF o "BuildInfo" decodeBuildInfo debug.BuildInfo.zero
  let numGoRoutines ← getF o "NumGoRoutines" Json.asInt 0
  let pid ← getF o "Pid" Json.asInt 0
  some { Memory := memory, GC := gc, Stack := stack, BuildInfo := buildInfo,
         NumGoRoutines := numGoRoutines, Pid := pid }

/-- Decoder for the second half of the `Snapshot` fields. -/
def decodeSnapshotP2 (o : List (String × Json)) : Option SnapshotP2 := do
  let uid ← getF o "Uid" Json.asInt 0
  let gid ← getF o "Gid" Json.asInt 0
  let environ ← getF o "Environ" (Json.asArrOf Json.asStr) []
  let executable ← getF o "Executable" Json.asStr ""
  let wd ← getF o "Wd" Json.asStr ""
  let hostname ← getF o "Hostname" Json.asStr ""
  some { Uid := uid, Gid := gid, Environ := environ,
         Executable := executable, Wd := wd, Hostname := hostname }

/-- JSON decoding of a `Snapshot` record, as `json.Unmarshal` would parse
the text written into the `snapshot.json` archive entry. -/
def decodeSnapshot : Json → Option Snapshot
  | .obj o => do
    let p1 ← decodeSnapshotP1 o
    let p2 ← decodeSnapshotP2 o
    some { Memory := p1.Memory, GC := p1.GC, Stack := p1.Stack,
           BuildInfo := p1.BuildInfo, NumGoRoutines := p1.NumGoRoutines,
           Pid := p1.Pid, Uid := p2.Uid, Gid := p2.Gid,
           Environ := p2.Environ, Executable := p2.Executable,
           Wd := p2.Wd, Hostname := p2.Hostname }
  | _ => none

theorem decodeSnapshotP1_fields (s : Snapshot) :
    decodeSnapshotP1 (snapshotFields s) =
      some ⟨s.Memory, s.GC, s.Stack, s.BuildInfo, s.NumGoRoutines, s.Pid⟩ := by
  show Option.bind (decodeMemStats (.obj (memStatsFields s.Memory))) _ = _
  rw [decodeMemStats_objFields]
  show Option.bind (decodeGCStats (.obj (gcStatsFields s.GC))) _ = _
  rw [decodeGCStats_objFields]
  show Option.bind (decodeBuildInfo (.obj (buildInfoFields s.BuildInfo))) _ = _
  rw [decodeBuildInfo_objFields]
  rfl

theorem decodeSnapshotP2_fields (s : Snapshot) :
    decodeSnapshotP2 (snapshotFields s) =
      some ⟨s.Uid, s.Gid, s.Environ, s.Executable, s.Wd, s.Hostname⟩ := by
  show Option.bind (Json.asArrOf Json.asStr (.arr (s.Environ.map Json.str))) _ = _
  rw [Json.asArrOf_map_str]
  rfl

/-- Round trip of the `Snapshot` record through its JSON representation:
decoding the encoding of any record gives back the record. -/
theorem decodeSnapshot_encodeSnapshot (s : Snapshot) :
    decodeSnapshot (encodeSnapshot s) = some s := by
  simp only [encodeSnapshot, decodeSnapshot, decodeSnapshotP1_fields,
    decodeSnapshotP2_fields, Option.some_bind]
  rfl

mutual

/-- Rendering of a JSON tree to text.  The encoder in `Full` uses
four-space indentation; the renderer here uses the compact layout,
abstracting the whitespace, which none of the verified properties
depend on. -/
def Json.render : Json → String
  | .null => "null"
  | .bool true => "true"
  | .bool false => "false"
  | .num q => toString q
  | .str s => "\"" ++ s ++ "\""
  | .arr l => "[" ++ Json.renderList l ++ "]"
  | .obj o => "\x7b" ++ Json.renderObj o ++ "\x7d"

/-- Comma-separated rendering of array elements. -/
def Json.renderList : List Json → String
  | [] => ""
  | [j] => Json.render j
  | j :: t => Json.render j ++ "," ++ Json.renderList t

/-- Comma-separated rendering of object members. -/
def Json.renderObj : List (String × Json) → String
  | [] => ""
  | [(k, v)] => "\"" ++ k ++ "\":" ++ Json.render v
  | (k, v) :: t => "\"" ++ k ++ "\":" ++ Json.render v ++ "," ++ Json.renderObj t

end

/-- Text written into the `snapshot.json` entry by `encoder.Encode`: the
rendered JSON document followed by the newline `Encode` always appends. -/
def encodeSnapshotText (s : Snapshot) : String :=
  (encodeSnapshot s).render ++ "\n"

theorem encodeSnapshotText_ne_empty (s : Snapshot) :
    encodeSnapshotText s ≠ "" := by
  intro h
  have hlen : (encodeSnapshotText s).length = 0 := by rw [h]; rfl
  rw [encodeSnapshotText, String.length_append] at hlen
  have h1 : ("\n" : String).length = 1 := rfl
  rw [h1] at hlen
  omega

/-- Outcome environment for one call of `Collect`: the values the Go
runtime and OS hand to each primitive the function invokes.  A `none` in
an `Option`-typed field models that call failing (a non-nil error, or
`ok = false` for `ReadBuildInfo`). -/
structure CollectEnv where
  /-- statistics `runtime.ReadMemStats` fills into `s.Memory`. -/
  memStats : runtime.MemStats
  /-- statistics `debug.ReadGCStats` fills into `s.GC`. -/
  gcStats : debug.GCStats
  /-- result of `debug.ReadBuildInfo()`: `none` models `ok = false`, in
  which case the returned pointer is nil. -/
  buildInfo : Option debug.BuildInfo
  /-- bytes returned by `debug.Stack()`. -/
  stack : String
  /-- result of `runtime.NumGoroutine()`. -/
  numGoroutine : Int
  /-- result of `os.Getpid()`. -/
  pid : Int
  /-- result of `os.Getuid()`. -/
  uid : Int
  /-- result of `os.Getgid()`. -/
  gid : Int
  /-- result of `os.Environ()`. -/
  environ : List String
  /-- result of `os.Executable()`: `none` models a failure, in which case
  the string result is empty. -/
  executableRes : Option String
  /-- result of `os.Getwd()`: `none` models a failure. -/
  wdRes : Option String
  /-- result of `os.Hostname()`: `none` models a failure. -/
  hostnameRes : Option String
  deriving DecidableEq, Inhabited

/-- The record `Collect` assembles when `ReadBuildInfo` succeeded with
build information `bi`: every other lookup failure is absorbed by `_`
discards, leaving the string fields empty. -/
def mkSnapshot (env : CollectEnv) (bi : debug.BuildInfo) : Snapshot :=
  { Memory := env.memStats
    GC := env.gcStats
    Stack := env.stack
    BuildInfo := bi
    NumGoRoutines := env.numGoroutine
    Pid := env.pid
    Uid := env.uid
    Gid := env.gid
    Environ := env.environ
    Executable := env.executableRes.getD ""
    Wd := env.wdRes.getD ""
    Hostname := env.hostnameRes.getD "" }

/-- The `Collect` function of `snapshot.go`.  The result `none` models a
runtime panic: the code executes `s.BuildInfo = *buildInfo` without
checking the discarded second result of `debug.ReadBuildInfo`, so when
build information is unavailable the nil pointer `buildInfo` is
dereferenced and the call panics instead of returning a record. -/
def Collect (env : CollectEnv) : Option Snapshot :=
  match env.buildInfo with
  | none => none
  | some bi => some (mkSnapshot env bi)

/-- Model of the error values `Full` returns: each is built by
`fmt.Errorf("tag: %s", cause)` with a short stage tag and the message of
the underlying error. -/
structure GoError where
  tag : String
  cause : String
  deriving DecidableEq, Inhabited

/-- The message text of a modelled error. -/
def GoError.message (e : GoError) : String := e.tag ++ ": " ++ e.cause

/-- Outcome environment for one call of `Full`: the result of every
fallible or effectful primitive the function invokes, in program order.
Fields whose errors the code discards are recorded here too, so that the
theorems can state exactly which outcomes influence the result. -/
structure FullEnv where
  /-- error from `os.OpenFile(fileName, ...)`; `none` is success. -/
  openErr : Option String
  /-- whether a file already exists at `fileName` before the call. -/
  preexisting : Bool
  /-- permission bits of that preexisting file. -/
  priorMode : Nat
  /-- the process umask the OS applies when creating the file. -/
  umask : Nat
  /-- environment of the nested `Collect()` call. -/
  collectEnv : CollectEnv
  /-- error from `zw.Create("snapshot.json")`. -/
  snapCreateErr : Option String
  /-- error from `encoder.Encode(sn)`. -/
  encodeErr : Option String
  /-- error from `zw.Create("stack.txt")`. -/
  traceCreateErr : Option String
  /-- error from `pprof.Lookup("goroutine").WriteTo(traceFile, 1)`. -/
  traceWriteErr : Option String
  /-- text the "goroutine" pprof profile produces at debug level 1 — the
  aggregated legacy text format, one record per distinct stack — which is
  the level the code passes to `WriteTo`. -/
  profileDebug1 : String
  /-- text the "goroutine" pprof profile would produce at debug level 2 —
  the full-verbosity, panic-style dump listing every goroutine separately
  with its state.  The code never requests this level; the field exists to
  compare the written entry against the specification's wording. -/
  profileDebug2 : String
  /-- error from `os.CreateTemp("", "dump")`. -/
  tempErr : Option String
  /-- name of the temporary file `CreateTemp` creates. -/
  tempName : String
  /-- bytes `debug.WriteHeapDump` writes into the temporary file (that
  function returns nothing and exposes no error). -/
  heapDump : String
  /-- whether `tmpFile.Seek(0, 0)` succeeds; its error is discarded, and on
  failure the read position stays at the end of the dump. -/
  seekOk : Bool
  /-- error from `zw.Create("heap.bin")`. -/
  dumpCreateErr : Option String
  /-- whether `io.Copy(dumpFile, tmpFile)` completes; its error is
  discarded. -/
  copyOk : Bool
  /-- bytes the copy transferred before failing, when it fails. -/
  copyPartial : String
  /-- error from `zw.Close()`; the code discards it. -/
  closeErr : Option String
  /-- error from the deferred `f.Close()`; the code discards it. -/
  fileCloseErr : Option String
  deriving DecidableEq, Inhabited

/-- Observable outcome of a `Full` call: the returned error, the state of
the file at `fileName`, the archive entries written, the temporary dump
files still existing on return, and whether the call panicked. -/
structure FullResult where
  /-- the `error` return value; `none` is a nil error. -/
  err : Option GoError
  /-- permission bits of the file at `fileName` after the call; `none`
  when no file exists there. -/
  fileMode : Option Nat
  /-- the archive entries created, in creation order, with the bytes
  written into each. -/
  entries : List (String × String)
  /-- temporary dump files still present when the call returns. -/
  tempsRemaining : List String
  /-- true when the call panics (out of `Collect`) instead of returning;
  `err` is then meaningless. -/
  panicked : Bool
  deriving DecidableEq, Inhabited

/-- The permission argument `os.ModePerm` that `Full` passes to
`os.OpenFile`: octal 0777. -/
def Full.openPerm : Nat := 0o777

/-- Mode bits of a file newly created by `os.OpenFile` with permission
`Full.openPerm`: the OS clears the bits set in the process umask. -/
def createdMode (umask : Nat) : Nat :=
  Full.openPerm &&& (0o777 ^^^ (umask &&& 0o777))

/-- The `Full` function of `snapshot.go`, stage by stage in program order:
open the output file, start a zip writer, `Collect()`, write the
`snapshot.json` entry, write the `stack.txt` entry from the goroutine
profile at debug level 1, create a temporary file, heap-dump into it, seek
back, write the `heap.bin` entry by copying the dump, remove the temporary
file, close the zip writer.  Error-discarding operations of the source
(`Seek`, `io.Copy`, `tmpFile.Close`, `os.Remove`, `zw.Close`, the deferred
`f.Close`) influence the file state but never the returned error. -/
def Full (env : FullEnv) : FullResult :=
  match env.openErr with
  | some e =>
    { err := some ⟨"open", e⟩
      fileMode := if env.preexisting then some env.priorMode else none
      entries := []
      tempsRemaining := []
      panicked := false }
  | none =>
    -- the file at fileName now exists: O_CREATE created it (mode 0777
    -- filtered by the umask) or O_TRUNC emptied the existing one (mode
    -- unchanged)
    let mode := if env.preexisting then env.priorMode else createdMode env.umask
    match Collect env.collectEnv with
    | none =>
      -- Collect panicked on the nil build-info pointer; the panic
      -- propagates out of Full after the file was already truncated
      { err := none, fileMode := some mode, entries := [],
        tempsRemaining := [], panicked := true }
    | some sn =>
      match env.snapCreateErr with
      | some e =>
        { err := some ⟨"snapshot", e⟩, fileMode := some mode, entries := [],
          tempsRemaining := [], panicked := false }
      | none =>
        match env.encodeErr with
        | some e =>
          { err := some ⟨"snapshot", e⟩, fileMode := some mode,
            entries := [("snapshot.json", "")], tempsRemaining := [],
            panicked := false }
        | none =>
          match env.traceCreateErr with
          | some e =>
            { err := some ⟨"trace", e⟩, fileMode := some mode,
              entries := [("snapshot.json", encodeSnapshotText sn)],
              tempsRemaining := [], panicked := false }
          | none =>
            match env.traceWriteErr with
            | some e =>
              { err := some ⟨"trace", e⟩, fileMode := some mode,
                entries := [("snapshot.json", encodeSnapshotText sn),
                            ("stack.txt", "")],
                tempsRemaining := [], panicked := false }
            | none =>
              match env.tempErr with
              | some e =>
                { err := some ⟨"dump", e⟩, fileMode := some mode,
                  entries := [("snapshot.json", encodeSnapshotText sn),
                              ("stack.txt", env.profileDebug1)],
                  tempsRemaining := [], panicked := false }
              | none =>
                match env.dumpCreateErr with
                | some e =>
                  -- the temporary file was created and filled by
                  -- WriteHeapDump, and this return path never removes it
                  { err := some ⟨"dump", e⟩, fileMode := some mode,
                    entries := [("snapshot.json", encodeSnapshotText sn),
                                ("stack.txt", env.profileDebug1)],
                    tempsRemaining := [env.tempName], panicked := false }
                | none =>
                  -- io.Copy's error is discarded: heap.bin receives
                  -- whatever was transferred; a failed Seek leaves the
                  -- read position at the end, so the copy moves nothing
                  { err := none, fileMode := some mode,
                    entries :=
                      [("snapshot.json", encodeSnapshotText sn),
                       ("stack.txt", env.profileDebug1),
                       ("heap.bin",
                        if env.seekOk then
                          (if env.copyOk then env.heapDump else env.copyPartial)
                        else "")],
                    tempsRemaining := [], panicked := false }

/-- The projection of a `Snapshot` onto the identity fields that do not
change between two immediate calls: pid, uid, gid, executable path,
working directory, hostname and build information. -/
def identityFields (s : Snapshot) :
    Int × Int × Int × String × String × String × debug.BuildInfo :=
  (s.Pid, s.Uid, s.Gid, s.Executable, s.Wd, s.Hostname, s.BuildInfo)

/-- All stages of `Full` before the heap-dump stage succeed: the file
opened, `Collect` returned (build information was available), and the
snapshot and trace entries were created and written. -/
abbrev reachesDump (env : FullEnv) : Prop :=
  env.openErr = none ∧ env.collectEnv.buildInfo ≠ none ∧
  env.snapCreateErr = none ∧ env.encodeErr = none ∧
  env.traceCreateErr = none ∧ env.traceWriteErr = none

/-- A `Collect` environment in which every lookup succeeds except
`debug.ReadBuildInfo`, which reports no build information (as for a binary
compiled without module support). -/
def noBuildInfoEnv : CollectEnv :=
  { memStats := default
    gcStats := default
    buildInfo := none
    stack := "goroutine 1 [running]:\n"
    numGoroutine := 1
    pid := 1234
    uid := 0
    gid := 0
    environ := ["PATH=/usr/bin"]
    executableRes := some "/usr/local/bin/app"
    wdRes := some "/srv"
    hostnameRes := some "host1" }

/-- An environment for `Full` in which every primitive succeeds.  The two
profile texts differ, as the aggregated level-1 format and the
per-goroutine level-2 format always do for a live process. -/
def okEnv : FullEnv :=
  { openErr := none
    preexisting := false
    priorMode := 0
    umask := 0o022
    collectEnv :=
      { memStats := default
        gcStats := default
        buildInfo := some default
        stack := "stack"
        numGoroutine := 2
        pid := 41
        uid := 1000
        gid := 1000
        environ := ["A=1"]
        executableRes := some "/bin/app"
        wdRes := some "/home"
        hostnameRes := some "h" }
    snapCreateErr := none
    encodeErr := none
    traceCreateErr := none
    traceWriteErr := none
    profileDebug1 := "goroutine profile: total 2\n"
    profileDebug2 := "goroutine 1 [running]:\nmain.main()\n"
    tempErr := none
    tempName := "/tmp/dump123"
    heapDump := "go1.7 heap dump\n"
    seekOk := true
    dumpCreateErr := none
    copyOk := true
    copyPartial := ""
    closeErr := none
    fileCloseErr := none }

/-- Environment identical to `okEnv` except that creating the `heap.bin`
archive entry fails. -/
def tempLeakEnv : FullEnv := { okEnv with dumpCreateErr := some "zip closed" }

/-- Environment identical to `okEnv` except that `io.Copy` of the heap
dump fails (transferring nothing). -/
def copyFailEnv : FullEnv := { okEnv with copyOk := false, copyPartial := "" }

/-- Claim C1: the claim states that `Collect` never fails and absorbs
every internal lookup failure.  The code, however, discards the `ok`
result of `debug.ReadBuildInfo` and dereferences the returned pointer
unconditionally, so when build information is unavailable the pointer is
nil and `Collect` panics (modelled by the `none` result) instead of
returning a record with a zero `BuildInfo` field. -/
theorem collect_crashes_without_buildinfo : Collect noBuildInfoEnv = none := rfl

/-- Claim C2, counterexample: on the return path where `zw.Create
("heap.bin")` fails, `Full` returns the dump-stage error with the
temporary dump file still present — the source removes the temporary file
only on the success path, after `io.Copy`. -/
theorem full_leaves_tempfile_on_heap_entry_failure :
    (Full tempLeakEnv).err = some ⟨"dump", "zip closed"⟩ ∧
    (Full tempLeakEnv).tempsRemaining = ["/tmp/dump123"] ∧
    (Full tempLeakEnv).tempsRemaining ≠ [] :=
  ⟨rfl, rfl, by decide⟩

/-- Claim C2 (amended): the temporary heap-dump file is removed before
`Full` returns on every path — including all failure paths — except one:
when the dump stage was reached, the temporary file was created, and
creating the `heap.bin` archive entry then fails, `Full` returns with the
temporary file still in the temp directory. -/
theorem full_tempfile_cleanup_characterization (env : FullEnv) :
    (Full env).tempsRemaining =
      if reachesDump env ∧ env.tempErr = none ∧ env.dumpCreateErr ≠ none
      then [env.tempName] else [] := by
  obtain ⟨op, pre, pm, um, ce, sc, ee, tc, tw, p1, p2, te, tn, hd, sk, dc,
    co, cp, cl, fc⟩ := env
  obtain ⟨ms, gs, bi, stk, ng, pidv, uidv, gidv, envv, exe, wdv, hn⟩ := ce
  cases op <;> cases bi <;> cases sc <;> cases ee <;> cases tc <;>
    cases tw <;> cases te <;> cases dc <;>
    simp [Full, Collect, reachesDump]

/-- Claim C3, counterexample: a failure of `io.Copy` while copying the
heap dump into the `heap.bin` entry does not produce any error — the
source discards the copy's result — so `Full` returns nil even though a
step of the heap-dump stage failed. -/
theorem full_ignores_copy_failure :
    copyFailEnv.copyOk = false ∧ (Full copyFailEnv).err = none :=
  ⟨rfl, rfl⟩

/-- Claim C3 (amended): `Full` returns a dump-tagged error exactly when
all earlier stages succeed and either creating the temporary dump file or
creating the `heap.bin` archive entry fails.  The heap-dump write itself
(`debug.WriteHeapDump`) exposes no error, and failures of the seek and of
the copy into the entry are silently discarded. -/
theorem full_dump_error_characterization (env : FullEnv) :
    (Full env).err.map GoError.tag = some "dump" ↔
      reachesDump env ∧ (env.tempErr ≠ none ∨ env.dumpCreateErr ≠ none) := by
  obtain ⟨op, pre, pm, um, ce, sc, ee, tc, tw, p1, p2, te, tn, hd, sk, dc,
    co, cp, cl, fc⟩ := env
  obtain ⟨ms, gs, bi, stk, ng, pidv, uidv, gidv, envv, exe, wdv, hn⟩ := ce
  cases op <;> cases bi <;> cases sc <;> cases ee <;> cases tc <;>
    cases tw <;> cases te <;> cases dc <;>
    simp [Full, Collect, reachesDump, GoError.tag]

/-- Environment identical to `okEnv` except that finalizing the archive
stream (`zw.Close`) fails. -/
def closeFailEnv : FullEnv := { okEnv with closeErr := some "short write" }

/-- Environment identical to `okEnv` except that rewinding the temporary
dump file (`tmpFile.Seek(0, 0)`) fails, so the copy transfers nothing. -/
def seekFailEnv : FullEnv := { okEnv with seekOk := false }

/-- Environment identical to `okEnv` except that creating the `stack.txt`
archive entry fails. -/
def traceFailEnv : FullEnv := { okEnv with traceCreateErr := some "disk full" }

/-- Environment identical to `okEnv` except that opening the output file
fails (as for a path in a non-existent directory). -/
def openFailEnv : FullEnv :=
  { okEnv with openErr := some "no such file or directory" }

/-- Claim C4, counterexample: when finalizing and closing the archive
stream fails, `Full` still returns nil — the source discards the result
of `zw.Close()` (and of the deferred `f.Close()`), so a failure of the
final stage produces no error at all. -/
theorem full_returns_nil_despite_close_failure :
    closeFailEnv.closeErr = some "short write" ∧
    (Full closeFailEnv).err = none ∧ (Full closeFailEnv).panicked = false :=
  ⟨rfl, rfl, rfl⟩

/-- Claim C4 (amended): provided `Collect` does not panic, `Full` returns
nil exactly when its seven fallible checked operations all succeed (open,
snapshot entry creation, snapshot encoding, trace entry creation, trace
write, temp-file creation, heap entry creation); the first failure among
them is returned immediately, tagged with its stage name and carrying the
underlying cause.  Errors from the dump seek, the dump copy, the archive
close and the file close are discarded and never affect the result. -/
theorem full_error_semantics (env : FullEnv) (bi : debug.BuildInfo)
    (hb : env.collectEnv.buildInfo = some bi) :
    ((Full env).err = none ↔
      env.openErr = none ∧ env.snapCreateErr = none ∧
      env.encodeErr = none ∧ env.traceCreateErr = none ∧
      env.traceWriteErr = none ∧ env.tempErr = none ∧
      env.dumpCreateErr = none) ∧
    (∀ e, env.openErr = some e → (Full env).err = some ⟨"open", e⟩) ∧
    (∀ e, env.openErr = none → env.snapCreateErr = some e →
      (Full env).err = some ⟨"snapshot", e⟩) ∧
    (∀ e, env.openErr = none → env.snapCreateErr = none →
      env.encodeErr = some e → (Full env).err = some ⟨"snapshot", e⟩) ∧
    (∀ e, env.openErr = none → env.snapCreateErr = none →
      env.encodeErr = none → env.traceCreateErr = some e →
      (Full env).err = some ⟨"trace", e⟩) ∧
    (∀ e, env.openErr = none → env.snapCreateErr = none →
      env.encodeErr = none → env.traceCreateErr = none →
      env.traceWriteErr = some e → (Full env).err = some ⟨"trace", e⟩) ∧
    (∀ e, env.openErr = none → env.snapCreateErr = none →
      env.encodeErr = none → env.traceCreateErr = none →
      env.traceWriteErr = none → env.tempErr = some e →
      (Full env).err = some ⟨"dump", e⟩) ∧
    (∀ e, env.openErr = none → env.snapCreateErr = none →
      env.encodeErr = none → env.traceCreateErr = none →
      env.traceWriteErr = none → env.tempErr = none →
      env.dumpCreateErr = some e → (Full env).err = some ⟨"dump", e⟩) := by
  obtain ⟨op, pre, pm, um, ce, sc, ee, tc, tw, p1, p2, te, tn, hd, sk, dc,
    co, cp, cl, fc⟩ := env
  obtain ⟨ms, gs, bi0, stk, ng, pidv, uidv, gidv, envv, exe, wdv, hn⟩ := ce
  subst hb
  cases op <;> cases sc <;> cases ee <;> cases tc <;> cases tw <;>
    cases te <;> cases dc <;> simp [Full, Collect]

/-- Claim C5, counterexample: the `stack.txt` entry written on a successful
run contains the goroutine profile at debug verbosity 1 (the aggregated
format), not the full-verbosity per-goroutine dump that verbosity 2 would
produce — the source passes `1` to `WriteTo`. -/
theorem stack_entry_not_full_verbosity :
    (Full okEnv).err = none ∧
    List.lookup "stack.txt" (Full okEnv).entries = some okEnv.profileDebug1 ∧
    ¬ List.lookup "stack.txt" (Full okEnv).entries = some okEnv.profileDebug2 :=
  ⟨rfl, rfl, by decide⟩

/-- Claim C5 (amended): once the earlier stages succeed, the `stack.txt`
entry contains the textual goroutine profile at debug verbosity 1 — one
record per distinct stack, covering all goroutines in aggregated form —
and a failure to create the entry or to write the profile yields an error
tagged `trace` carrying the underlying cause. -/
theorem full_trace_stage_behavior (env : FullEnv) (bi : debug.BuildInfo)
    (hb : env.collectEnv.buildInfo = some bi)
    (h1 : env.openErr = none) (h2 : env.snapCreateErr = none)
    (h3 : env.encodeErr = none) :
    (env.traceCreateErr = none → env.traceWriteErr = none →
      List.lookup "stack.txt" (Full env).entries = some env.profileDebug1) ∧
    (∀ e, env.traceCreateErr = some e →
      (Full env).err = some ⟨"trace", e⟩) ∧
    (∀ e, env.traceCreateErr = none → env.traceWriteErr = some e →
      (Full env).err = some ⟨"trace", e⟩) := by
  refine ⟨fun h4 h5 => ?_, fun e h4 => ?_, fun e h4 h5 => ?_⟩
  · cases h6 : env.tempErr <;> cases h7 : env.dumpCreateErr <;>
      simp [Full, Collect, List.lookup, hb, h1, h2, h3, h4, h5, h6, h7]
  · simp [Full, Collect, hb, h1, h2, h3, h4]
  · simp [Full, Collect, hb, h1, h2, h3, h4, h5]

/-- Claim C6, counterexample: a call on which every checked stage succeeds
but the error-ignored rewind of the temporary dump file fails returns nil
with all three entries present — and `heap.bin` empty, because the copy
started at the end of the dump.  "Every entry has non-zero size" therefore
fails on a successful call. -/
theorem heap_entry_can_be_empty_on_success :
    (Full seekFailEnv).err = none ∧
    (Full seekFailEnv).entries.map Prod.fst =
      ["snapshot.json", "stack.txt", "heap.bin"] ∧
    List.lookup "heap.bin" (Full seekFailEnv).entries = some "" :=
  ⟨rfl, rfl, rfl⟩

/-- Claim C6 (amended): after a successful `Full` call the archive holds
exactly three entries, created in the order `snapshot.json`, `stack.txt`,
`heap.bin`; the first contains the encoded snapshot record (never empty,
and decoding the encoded record yields the record back), the second the
goroutine profile (non-empty whenever the profile text is), and the third
the bytes the copy transferred out of the heap dump — the whole dump when
the error-ignored seek and copy succeed, possibly nothing otherwise. -/
theorem full_success_archive_layout (env : FullEnv) (bi : debug.BuildInfo)
    (hb : env.collectEnv.buildInfo = some bi)
    (h1 : env.openErr = none) (h2 : env.snapCreateErr = none)
    (h3 : env.encodeErr = none) (h4 : env.traceCreateErr = none)
    (h5 : env.traceWriteErr = none) (h6 : env.tempErr = none)
    (h7 : env.dumpCreateErr = none) (hp : env.profileDebug1 ≠ "") :
    (Full env).err = none ∧ (Full env).panicked = false ∧
    (Full env).entries =
      [("snapshot.json", encodeSnapshotText (mkSnapshot env.collectEnv bi)),
       ("stack.txt", env.profileDebug1),
       ("heap.bin",
        if env.seekOk then
          (if env.copyOk then env.heapDump else env.copyPartial)
        else "")] ∧
    encodeSnapshotText (mkSnapshot env.collectEnv bi) ≠ "" ∧
    env.profileDebug1 ≠ "" ∧
    decodeSnapshot (encodeSnapshot (mkSnapshot env.collectEnv bi)) =
      some (mkSnapshot env.collectEnv bi) := by
  refine ⟨?_, ?_, ?_, encodeSnapshotText_ne_empty _, hp,
    decodeSnapshot_encodeSnapshot _⟩ <;>
    simp [Full, Collect, hb, h1, h2, h3, h4, h5, h6, h7]

/-- Claim C7: serializing a `Snapshot` record to the structured text used
for the `snapshot.json` entry and parsing that text back yields a record
equal to the original in all fields. -/
theorem snapshot_json_roundtrip (s : Snapshot) :
    decodeSnapshot (encodeSnapshot s) = some s :=
  decodeSnapshot_encodeSnapshot s

/-- Claim C8: when opening the output file fails (non-existent directory,
missing permission), `Full` returns an error tagged `open` whose message
embeds the underlying cause, and no file is created at the path; no
archive entry is written and no temporary file is left behind. -/
theorem full_open_failure (env : FullEnv) (e : String)
    (h : env.openErr = some e) (hpre : env.preexisting = false) :
    (Full env).err = some ⟨"open", e⟩ ∧
    (Full env).err.map GoError.message = some ("open: " ++ e) ∧
    (Full env).fileMode = none ∧ (Full env).entries = [] ∧
    (Full env).tempsRemaining = [] ∧ (Full env).panicked = false := by
  simp [Full, h, hpre, GoError.message]

/-- Claim C9: two `Collect` calls under environments that agree on the
process-identity lookups (pid, uid, gid, executable, working directory,
hostname, build information) produce the same identity fields — whatever
the counter-like inputs (memory statistics, GC statistics, goroutine
count) do; if build information is unavailable both calls panic alike. -/
theorem collect_identity_fields_stable (e1 e2 : CollectEnv)
    (hpid : e1.pid = e2.pid) (huid : e1.uid = e2.uid)
    (hgid : e1.gid = e2.gid) (hexe : e1.executableRes = e2.executableRes)
    (hwd : e1.wdRes = e2.wdRes) (hhost : e1.hostnameRes = e2.hostnameRes)
    (hbi : e1.buildInfo = e2.buildInfo) :
    (Collect e1).map identityFields = (Collect e2).map identityFields := by
  cases h : e2.buildInfo with
  | none =>
    have h1 : e1.buildInfo = none := hbi.trans h
    simp [Collect, h, h1]
  | some bi =>
    have h1 : e1.buildInfo = some bi := hbi.trans h
    simp [Collect, h, h1, mkSnapshot, identityFields, hpid, huid, hgid,
      hexe, hwd, hhost]

/-- Claim C10: `Full` opens the output file with permission bits 0777
(`os.ModePerm`) and create/write-only/truncate flags: after a successful
open, a preexisting file keeps its mode but its old content is gone (the
written entries do not depend on what was there), and a newly created file
carries mode `0777 &&& ~umask`. -/
theorem full_open_mode_semantics (env : FullEnv)
    (h : env.openErr = none) :
    Full.openPerm = 0o777 ∧
    (env.preexisting = true → (Full env).fileMode = some env.priorMode) ∧
    (env.preexisting = false →
      (Full env).fileMode =
        some (Full.openPerm &&& (0o777 ^^^ (env.umask &&& 0o777)))) ∧
    (Full { env with preexisting := false }).entries =
      (Full { env with preexisting := true }).entries := by
  obtain ⟨op, pre, pm, um, ce, sc, ee, tc, tw, p1, p2, te, tn, hd, sk, dc,
    co, cp, cl, fc⟩ := env
  obtain ⟨ms, gs, bi, stk, ng, pidv, uidv, gidv, envv, exe, wdv, hn⟩ := ce
  subst h
  cases pre <;> cases bi <;> cases sc <;> cases ee <;> cases tc <;>
    cases tw <;> cases te <;> cases dc <;>
    simp [Full, Collect, createdMode, Full.openPerm]

/-- A `Collect` environment equal to `okEnv`'s except for the counter-like
inputs (memory statistics and goroutine count). -/
def collectEnvB : CollectEnv :=
  { okEnv.collectEnv with
    memStats := { (default : runtime.MemStats) with Alloc := 7 }
    numGoroutine := 9 }

theorem full_error_semantics_witness :
    (Full traceFailEnv).err = some ⟨"trace", "disk full"⟩ :=
  (full_error_semantics traceFailEnv default rfl).2.2.2.2.1 "disk full"
    rfl rfl rfl rfl

theorem full_trace_stage_behavior_witness :
    List.lookup "stack.txt" (Full okEnv).entries = some okEnv.profileDebug1 :=
  (full_trace_stage_behavior okEnv default rfl rfl rfl rfl).1 rfl rfl

theorem full_success_archive_layout_witness :
    (Full okEnv).err = none ∧ (Full okEnv).panicked = false ∧
    (Full okEnv).entries =
      [("snapshot.json",
        encodeSnapshotText (mkSnapshot okEnv.collectEnv default)),
       ("stack.txt", okEnv.profileDebug1),
       ("heap.bin",
        if okEnv.seekOk then
          (if okEnv.copyOk then okEnv.heapDump else okEnv.copyPartial)
        else "")] ∧
    encodeSnapshotText (mkSnapshot okEnv.collectEnv default) ≠ "" ∧
    okEnv.profileDebug1 ≠ "" ∧
    decodeSnapshot (encodeSnapshot (mkSnapshot okEnv.collectEnv default)) =
      some (mkSnapshot okEnv.collectEnv default) :=
  full_success_archive_layout okEnv default rfl rfl rfl rfl rfl rfl rfl rfl
    (by decide)

theorem full_open_failure_witness :
    (Full openFailEnv).err = some ⟨"open", "no such file or directory"⟩ ∧
    (Full openFailEnv).err.map GoError.message =
      some ("open: " ++ "no such file or directory") ∧
    (Full openFailEnv).fileMode = none ∧ (Full openFailEnv).entries = [] ∧
    (Full openFailEnv).tempsRemaining = [] ∧
    (Full openFailEnv).panicked = false :=
  full_open_failure openFailEnv "no such file or directory" rfl rfl

theorem collect_identity_fields_stable_witness :
    (Collect okEnv.collectEnv).map identityFields =
      (Collect collectEnvB).map identityFields ∧
    okEnv.collectEnv.memStats ≠ collectEnvB.memStats :=
  ⟨collect_identity_fields_stable okEnv.collectEnv collectEnvB rfl rfl rfl
    rfl rfl rfl rfl, by decide⟩

theorem full_open_mode_semantics_witness :
    Full.openPerm = 0o777 ∧
    (Full okEnv).fileMode =
      some (Full.openPerm &&& (0o777 ^^^ (okEnv.umask &&& 0o777))) := by
  have h := full_open_mode_semantics okEnv rfl
  exact ⟨h.1, h.2.2.1 rfl⟩
